import Mathlib

/-
  Verification of the HardwareMixer core (src/main.py).

  The development shallowly embeds the two core loops of the program:
  the Mixer session (hardware discovery, handshake, volume-frame parsing,
  reconnect-on-error) and the PulseAudio volume router (per-stream routing
  against the channel table).  External effects (the serial transport and the
  PulseAudio calls) are passed in as explicit data: a transport read is an
  `Except Unit (List Nat)` (the error being a SerialException), and a
  volume-set call that fails because the stream vanished is recorded by the
  `vanished` flag of the stream.  Python exceptions other than the caught
  ones surface as `Except.error` results.
-/

namespace HardwareMixer

/-- Python exceptions that can surface from the embedded code paths:
an `IndexError` from list indexing/assignment, and
`pulsectl.PulseOperationFailed` from a volume-set call. -/
inductive PyError where
  | indexError
  | pulseOperationFailed
  deriving DecidableEq

/-- Decoding of one raw mixer byte, `values[i] / 100` in `Mixer.read_volumes`. -/
def decodeByte (b : Nat) : ℚ := (b : ℚ) / 100

/-- State of a `Mixer` object: the stored volume list `self._volumes` and the
channel count `self._channels`. -/
structure MixerState where
  volumes : List ℚ
  channels : Nat
  deriving DecidableEq

/-- The assignment loop of `Mixer.read_volumes`,
`for i in range(self._channels): self._volumes[i] = values[i] / 100`,
started at index `i` with `fuel` iterations remaining.  Python evaluates
`values[i]` first (IndexError when out of range), then performs the
assignment (IndexError when `i` is outside `self._volumes`). -/
def storeLoopAux (vols : List ℚ) (vals : List Nat) (i : Nat) :
    Nat → Except PyError (List ℚ)
  | 0 => .ok vols
  | fuel + 1 =>
    match vals[i]? with
    | none => .error .indexError
    | some b =>
      if i < vols.length then
        storeLoopAux (vols.set i (decodeByte b)) vals (i + 1) fuel
      else .error .indexError

/-- The full assignment loop of `Mixer.read_volumes` over all `channels`
indices. -/
def storeLoop (vols : List ℚ) (vals : List Nat) (channels : Nat) :
    Except PyError (List ℚ) :=
  storeLoopAux vols vals 0 channels

/-- Embedding of `Mixer.read_volumes`.  `readResult` is the outcome of
`self._port.read(self._channels)`: `.error ()` models a raised
`serial.SerialException`, `.ok values` the returned bytes.  On the exception
the code calls `self._connect_mixer()`, which replaces the port and sets
`self._channels` to the newly handshaken count (`reconnectChannels`) but
never touches `self._volumes`; the handler then returns normally.  Any
IndexError inside the loop is not caught and propagates. -/
def read_volumes (st : MixerState) (readResult : Except Unit (List Nat))
    (reconnectChannels : Nat) : Except PyError MixerState :=
  match readResult with
  | .error _ => .ok { st with channels := reconnectChannels }
  | .ok values =>
    match storeLoop st.volumes values st.channels with
    | .error e => .error e
    | .ok v => .ok { st with volumes := v }

/-- Embedding of `Mixer.get_volumes`: it returns
`copy.deepcopy(self._volumes)`; as a value it
is the current volume list (the deep copy makes the result independently
owned by the caller). -/
def get_volumes (st : MixerState) : List ℚ := st.volumes

/-- The contents of the shared `self._volumes` list after the assignment loop
of `read_volumes` has executed `fuel` single-element writes starting at
index `i`.  Each step is exactly one in-place `list.set`, matching
`self._volumes[i] = values[i] / 100`. -/
def applySegment (vols : List ℚ) (vals : List Nat) (i : Nat) : Nat → List ℚ
  | 0 => vols
  | fuel + 1 =>
    match vals[i]? with
    | none => vols
    | some b => applySegment (vols.set i (decodeByte b)) vals (i + 1) fuel

/-- What a concurrent `get_volumes` observes when it runs after the first `k`
single-channel assignments of an in-flight `read_volumes` have completed. -/
def midReadSnapshot (vols : List ℚ) (vals : List Nat) (k : Nat) : List ℚ :=
  applySegment vols vals 0 k

/-- The 14-byte identification magic `b'Hardware Mixer'` as byte values. -/
def hardwareMixerMagic : List Nat := ("Hardware Mixer".data).map Char.toNat

/-- Big-endian byte decoding, `int.from_bytes(bs, 'big')`; the empty byte
string decodes to `0`. -/
def intFromBytesBE (bs : List Nat) : Nat :=
  bs.foldl (fun acc b => acc * 256 + b) 0

/-- Outcome of evaluating one candidate serial device in
`Mixer._connect_mixer`. -/
inductive CandidateOutcome where
  /-- The preamble matched: the handshake byte was written, the channel count
  read, and `_connect_mixer` returned with the port kept open. -/
  | connected (channels : Nat)
  /-- The preamble did not match: `self._port.close()` ran and the scan
  continues with the next candidate. -/
  | rejected
  deriving DecidableEq

/-- One candidate evaluation inside `Mixer._connect_mixer`: compare
`self._port.read_all()[:14]` against `b'Hardware Mixer'`; on a match, write
the handshake byte and take `int.from_bytes(self._port.read(1), 'big')` as
the channel count and return; otherwise close the port and keep scanning.
`preamble` is what `read_all()` returned, `handshakeRead` what the
channel-count `read(1)` returned (possibly empty). -/
def tryCandidate (preamble : List Nat) (handshakeRead : List Nat) :
    CandidateOutcome :=
  if preamble.take 14 = hardwareMixerMagic then
    .connected (intFromBytesBE handshakeRead)
  else
    .rejected

/-- A PulseAudio sink input as the router sees it: the
`proplist.get('application.name')` value (`none` when the attribute is
absent) and whether a volume-set call on it raises
`PulseOperationFailed` because the stream vanished mid-iteration. -/
structure SinkInput where
  appName : Option String
  vanished : Bool
  deriving DecidableEq

/-- The `for i, channel_apps in enumerate(channels)` loop with
`if app_name in channel_apps: ...; break`: index of the first routing entry
whose name list contains `name`. -/
def firstMatch (channels : List (List String)) (name : String) : Option Nat :=
  match channels with
  | [] => none
  | e :: rest =>
    if e.contains name then some 0
    else (firstMatch rest name).map (· + 1)

/-- Embedding of `channels.index(target)` as an option: index of the first
entry equal to
`target`, `none` when a `ValueError` would be raised. -/
def indexOfList (channels : List (List String)) (target : List String) :
    Option Nat :=
  match channels with
  | [] => none
  | e :: rest =>
    if e = target then some 0
    else (indexOfList rest target).map (· + 1)

/-- The module-level `any_controller` computation:
`channels.index(["ANY"]) + 1`, or `False` (here `none`) when no entry equals
`["ANY"]`. -/
def anyControllerOf (channels : List (List String)) : Option Nat :=
  (indexOfList channels ["ANY"]).map (· + 1)

/-- The routing index a stream with application name `name` resolves to:
the first matching entry, else the catch-all's channel
(`any_controller - 1`), else no entry at all. -/
def routeIdx (channels : List (List String)) (anyController : Option Nat)
    (name : String) : Option Nat :=
  match firstMatch channels name with
  | some i => some i
  | none => anyController.map (· - 1)

/-- The per-stream body of `PulseAudioConnection.listen`: read the
application name (skip when absent or falsy-empty), find the first matching
entry and apply `volumes[i]`; otherwise, when `any_controller` is not
`False`, apply `volumes[any_controller - 1]`.  `volumes[...]` raises an
uncaught IndexError when out of range; a `PulseOperationFailed` from the
volume-set call is caught and the stream is skipped.  The result records the
volume applied to this stream, `none` when no volume-set call succeeded. -/
def processSink (channels : List (List String)) (anyController : Option Nat)
    (volumes : List ℚ) (s : SinkInput) : Except PyError (Option ℚ) :=
  match s.appName with
  | none => .ok none
  | some name =>
    if name = "" then .ok none
    else
      match firstMatch channels name with
      | some i =>
        match volumes[i]? with
        | none => .error .indexError
        | some v => if s.vanished then .ok none else .ok (some v)
      | none =>
        match anyController with
        | none => .ok none
        | some k =>
          match volumes[k - 1]? with
          | none => .error .indexError
          | some v => if s.vanished then .ok none else .ok (some v)

/-- One pass of the `for sink in self._pulse.sink_input_list()` loop of
`PulseAudioConnection.listen`: process every stream in order; an uncaught
exception from any stream aborts the iteration. -/
def listenIter (channels : List (List String)) (anyController : Option Nat)
    (volumes : List ℚ) : List SinkInput → Except PyError (List (Option ℚ))
  | [] => .ok []
  | s :: rest =>
    match processSink channels anyController volumes s with
    | .error e => .error e
    | .ok r =>
      match listenIter channels anyController volumes rest with
      | .error e => .error e
      | .ok rs => .ok (r :: rs)

end HardwareMixer

namespace HardwareMixer

/-- The decoded volume of a raw byte is nonnegative. -/
theorem decodeByte_nonneg (b : Nat) : 0 ≤ decodeByte b := by
  rw [decodeByte]
  positivity

/-- The decoded volume of a legal raw byte is at most one. -/
theorem decodeByte_le_one (b : Nat) (hb : b ≤ 100) : decodeByte b ≤ 1 := by
  rw [decodeByte, div_le_one (by norm_num)]
  exact_mod_cast hb

/-- When the loop stays inside both lists, the assignment loop of
`read_volumes` succeeds and its result is the sequence of in-place writes
described by `applySegment`. -/
theorem storeLoopAux_eq_applySegment (fuel : Nat) :
    ∀ (vols : List ℚ) (vals : List Nat) (i : Nat),
      i + fuel ≤ vols.length → i + fuel ≤ vals.length →
      storeLoopAux vols vals i fuel = Except.ok (applySegment vols vals i fuel) := by
  induction fuel with
  | zero => intro vols vals i _ _; rfl
  | succ fuel ih =>
    intro vols vals i h1 h2
    have hi : i < vals.length := by omega
    have hb : vals[i]? = some vals[i] := List.getElem?_eq_getElem hi
    have hiv : i < vols.length := by omega
    simp only [storeLoopAux, applySegment, hb, if_pos hiv]
    apply ih
    · rw [List.length_set]; omega
    · omega

/-- The in-place writes of the read loop never change the list length. -/
theorem applySegment_length (fuel : Nat) :
    ∀ (vols : List ℚ) (vals : List Nat) (i : Nat),
      (applySegment vols vals i fuel).length = vols.length := by
  induction fuel with
  | zero => intro vols vals i; rfl
  | succ fuel ih =>
    intro vols vals i
    rw [applySegment]
    cases h : vals[i]? with
    | none => rfl
    | some b => rw [ih, List.length_set]

/-- Entries outside the segment of indices already written keep their old
values. -/
theorem applySegment_getElem?_untouched (fuel : Nat) :
    ∀ (vols : List ℚ) (vals : List Nat) (i j : Nat),
      j < i ∨ i + fuel ≤ j →
      (applySegment vols vals i fuel)[j]? = vols[j]? := by
  induction fuel with
  | zero => intro vols vals i j _; rfl
  | succ fuel ih =>
    intro vols vals i j hj
    rw [applySegment]
    cases h : vals[i]? with
    | none => rfl
    | some b =>
      rw [ih _ _ _ _ (by omega)]
      exact List.getElem?_set_ne (by omega)

/-- Entries inside the segment of indices already written hold the decoded
bytes of the new frame. -/
theorem applySegment_getElem?_written (fuel : Nat) :
    ∀ (vols : List ℚ) (vals : List Nat) (i j : Nat),
      i ≤ j → j < i + fuel → j < vols.length → j < vals.length →
      (applySegment vols vals i fuel)[j]? = (vals[j]?).map decodeByte := by
  induction fuel with
  | zero => intro vols vals i j h1 h2 _ _; omega
  | succ fuel ih =>
    intro vols vals i j h1 h2 h3 h4
    have hi : i < vals.length := by omega
    have hb : vals[i]? = some vals[i] := List.getElem?_eq_getElem hi
    rw [applySegment, hb]
    rcases Nat.eq_or_lt_of_le h1 with he | hlt
    · subst he
      rw [applySegment_getElem?_untouched fuel _ _ _ _ (Or.inl (by omega)),
        List.getElem?_set_eq_of_lt _ h3, hb]
      rfl
    · exact ih _ _ _ _ hlt (by omega) (by rw [List.length_set]; omega) h4

/-- The first matching entry's index is inside the routing table. -/
theorem firstMatch_lt_length :
    ∀ (channels : List (List String)) (name : String) (i : Nat),
      firstMatch channels name = some i → i < channels.length := by
  intro channels
  induction channels with
  | nil => intro name i h; cases h
  | cons e rest ih =>
    intro name i h
    rw [firstMatch] at h
    by_cases hc : e.contains name
    · rw [if_pos hc] at h
      cases h
      simp
    · rw [if_neg hc] at h
      cases hr : firstMatch rest name with
      | none => rw [hr] at h; cases h
      | some j =>
        rw [hr, Option.map_some'] at h
        cases h
        have := ih name j hr
        simp only [List.length_cons]
        omega

/-- The index found by `channels.index` is inside the routing table. -/
theorem indexOfList_lt_length :
    ∀ (channels : List (List String)) (target : List String) (j : Nat),
      indexOfList channels target = some j → j < channels.length := by
  intro channels
  induction channels with
  | nil => intro target j h; cases h
  | cons e rest ih =>
    intro target j h
    rw [indexOfList] at h
    by_cases hc : e = target
    · rw [if_pos hc] at h
      cases h
      simp
    · rw [if_neg hc] at h
      cases hr : indexOfList rest target with
      | none => rw [hr] at h; cases h
      | some j0 =>
        rw [hr, Option.map_some'] at h
        cases h
        have := ih target j0 hr
        simp only [List.length_cons]
        omega

/-- Processing a list of streams distributes over concatenation when both
halves complete without an uncaught exception. -/
theorem listenIter_append (channels : List (List String))
    (anyController : Option Nat) (volumes : List ℚ) :
    ∀ (l1 l2 : List SinkInput) (a b : List (Option ℚ)),
      listenIter channels anyController volumes l1 = Except.ok a →
      listenIter channels anyController volumes l2 = Except.ok b →
      listenIter channels anyController volumes (l1 ++ l2) = Except.ok (a ++ b) := by
  intro l1
  induction l1 with
  | nil =>
    intro l2 a b h1 h2
    cases h1
    simpa using h2
  | cons s rest ih =>
    intro l2 a b h1 h2
    rw [listenIter] at h1
    cases hp : processSink channels anyController volumes s with
    | error e => rw [hp] at h1; cases h1
    | ok r =>
      rw [hp] at h1
      cases hr : listenIter channels anyController volumes rest with
      | error e => rw [hr] at h1; cases h1
      | ok rs =>
        rw [hr] at h1
        cases h1
        simp [List.cons_append, listenIter, hp, ih l2 rs b hr h2]

/-- A stream whose name routes to an in-range channel but whose volume-set
call raises `PulseOperationFailed` is processed without an uncaught
exception and receives no volume. -/
theorem processSink_vanished (channels : List (List String))
    (anyController : Option Nat) (volumes : List ℚ) (s : SinkInput)
    (n : String) (i : Nat) (hn : s.appName = some n) (hne : n ≠ "")
    (hv : s.vanished = true) (hr : routeIdx channels anyController n = some i)
    (hi : i < volumes.length) :
    processSink channels anyController volumes s = Except.ok none := by
  have hvol : volumes[i]? = some volumes[i] := List.getElem?_eq_getElem hi
  rw [routeIdx] at hr
  cases hfm : firstMatch channels n with
  | some i0 =>
    simp only [hfm] at hr
    cases hr
    simp [processSink, hn, hne, hfm, hvol, hv]
  | none =>
    simp only [hfm] at hr
    cases hk : anyController with
    | none => rw [hk] at hr; simp at hr
    | some k =>
      simp only [hk, Option.map_some'] at hr
      cases hr
      simp [processSink, hn, hne, hfm, hk, hvol, hv]

/-- C7: a candidate device whose identification preamble read returns fewer
than the expected 14 bytes (including zero) is treated as a non-match —
`read_all()[:14]` is a short byte string that cannot equal
`b'Hardware Mixer'` — so the port is closed and scanning continues, and the
short read never raises. -/
theorem short_preamble_rejected (preamble handshakeRead : List Nat)
    (h : preamble.length < 14) :
    tryCandidate preamble handshakeRead = CandidateOutcome.rejected := by
  have hm : hardwareMixerMagic.length = 14 := by decide
  rw [tryCandidate, if_neg]
  intro he
  have hl := congrArg List.length he
  rw [List.length_take, hm] at hl
  omega

/-- Witness for `short_preamble_rejected`: the empty preamble (zero bytes
read) at a concrete candidate. -/
theorem short_preamble_rejected_witness :
    ([] : List Nat).length < 14
    ∧ tryCandidate [] [] = CandidateOutcome.rejected :=
  ⟨by decide, short_preamble_rejected [] [] (by decide)⟩

/-- C5 counterexample: when the channel-count read returns zero bytes (fewer
than 1), `_connect_mixer` does not treat the handshake as failed — it still
returns in the Connected state, with channel count
`int.from_bytes(b, 'big') = 0`. -/
theorem empty_handshake_read_connects_zero :
    ([] : List Nat).length < 1
    ∧ tryCandidate hardwareMixerMagic [] = CandidateOutcome.connected 0 :=
  ⟨by decide, by decide⟩

/-- C5 amended: whenever the preamble matches, `_connect_mixer` returns
Connected with channel count `int.from_bytes` of whatever bytes the
channel-count read produced — including the empty read, which yields channel
count 0; a short handshake read is not treated as a failure. -/
theorem connect_channel_count_from_bytes (preamble handshakeRead : List Nat)
    (h : preamble.take 14 = hardwareMixerMagic) :
    tryCandidate preamble handshakeRead
      = CandidateOutcome.connected (intFromBytesBE handshakeRead) := by
  rw [tryCandidate, if_pos h]

/-- Witness for `connect_channel_count_from_bytes`: the exact magic preamble
with an empty channel-count read. -/
theorem connect_channel_count_from_bytes_witness :
    hardwareMixerMagic.take 14 = hardwareMixerMagic
    ∧ tryCandidate hardwareMixerMagic []
        = CandidateOutcome.connected (intFromBytesBE []) :=
  ⟨by decide, connect_channel_count_from_bytes hardwareMixerMagic [] (by decide)⟩

/-- C4: the stored volume list does not track the handshaken channel count.
It is created as the two-element list `[0, 0]` in `Mixer.__init__` and the
read loop only assigns into it in place, never resizing.  With channel count
3 the first frame read raises an uncaught IndexError; with channel count 1
the stored vector keeps length 2 (one live channel plus a stale entry)
instead of length 1. -/
theorem volumes_length_not_resized :
    read_volumes ⟨[0, 0], 3⟩ (Except.ok [10, 20, 30]) 0
      = Except.error PyError.indexError
    ∧ read_volumes ⟨[0, 0], 1⟩ (Except.ok [50]) 0
        = Except.ok ⟨[decodeByte 50, 0], 1⟩
    ∧ ([decodeByte 50, 0] : List ℚ).length ≠ 1 := by
  refine ⟨rfl, rfl, by simp⟩

/-- C6: the loops are not free of unhandled exceptions.  In the router loop,
a stream matching the third routing entry indexes `volumes[2]` on the
two-element volume list; the resulting IndexError is not
`PulseOperationFailed`, so the `except` clause does not catch it and it
propagates out of `listen`. -/
theorem router_loop_uncaught_indexError :
    listenIter [["A"], ["B"], ["C"]] none [1/2, 4/5] [⟨some "C", false⟩]
      = Except.error PyError.indexError := rfl

/-- C9: a stream whose application-name attribute is absent is skipped by
`if not app_name: continue` before any routing entry (including the
catch-all) is consulted: no volume-set call is issued for it. -/
theorem absent_app_name_no_volume_set (channels : List (List String))
    (anyController : Option Nat) (volumes : List ℚ) (van : Bool) :
    processSink channels anyController volumes ⟨none, van⟩ = Except.ok none :=
  rfl

/-- C10: when the transport read inside `read_volumes` raises a
`SerialException`, the handler reconnects (replacing the port and channel
count) and returns without assigning any volume: the stored volume vector is
exactly the one from before the call, and a subsequent `get_volumes`
snapshot still returns the last pre-disconnect sample. -/
theorem transport_error_preserves_volumes (st : MixerState)
    (reconnectChannels : Nat) :
    read_volumes st (Except.error ()) reconnectChannels
      = Except.ok { volumes := st.volumes, channels := reconnectChannels }
    ∧ get_volumes { volumes := st.volumes, channels := reconnectChannels }
        = get_volumes st :=
  ⟨rfl, rfl⟩

/-- C1: for a stream with a (non-empty) application name, the router tests
the name against each routing entry's name list in table order and applies
the snapshot volume at the first matching entry's index; when no entry
matches and the table has a catch-all `["ANY"]` entry, the catch-all's
channel volume `volumes[any_controller - 1]` is applied; with no match and
no catch-all, no volume-set call is made and the stream is left untouched. -/
theorem router_first_match_then_catchall (channels : List (List String))
    (vols : List ℚ) (name : String)
    (hlen : channels.length ≤ vols.length) (hname : name ≠ "") :
    (∀ i, firstMatch channels name = some i →
        ∃ v, vols[i]? = some v
          ∧ processSink channels (anyControllerOf channels) vols
              ⟨some name, false⟩ = Except.ok (some v))
    ∧ (firstMatch channels name = none →
        (∀ j, indexOfList channels ["ANY"] = some j →
            ∃ v, vols[j]? = some v
              ∧ processSink channels (anyControllerOf channels) vols
                  ⟨some name, false⟩ = Except.ok (some v))
        ∧ (indexOfList channels ["ANY"] = none →
            processSink channels (anyControllerOf channels) vols
              ⟨some name, false⟩ = Except.ok none)) := by
  constructor
  · intro i hfm
    have hi : i < vols.length :=
      lt_of_lt_of_le (firstMatch_lt_length channels name i hfm) hlen
    have hv : vols[i]? = some vols[i] := List.getElem?_eq_getElem hi
    exact ⟨vols[i], hv, by simp [processSink, hname, hfm, hv]⟩
  · intro hfm
    constructor
    · intro j hany
      have hj : j < vols.length :=
        lt_of_lt_of_le (indexOfList_lt_length channels ["ANY"] j hany) hlen
      have hv : vols[j]? = some vols[j] := List.getElem?_eq_getElem hj
      refine ⟨vols[j], hv, ?_⟩
      simp [processSink, hname, hfm, anyControllerOf, hany, hv]
    · intro hany
      simp [processSink, hname, hfm, anyControllerOf, hany]

/-- Witness for `router_first_match_then_catchall`: one named group plus the
catch-all, a stream named "Browser" matching no named group, sample
`[3/10, 9/10]`: the catch-all's channel volume `9/10` is applied. -/
theorem router_first_match_then_catchall_witness :
    ∃ v, ([3/10, 9/10] : List ℚ)[1]? = some v
      ∧ processSink [["Music Player"], ["ANY"]]
          (anyControllerOf [["Music Player"], ["ANY"]]) [3/10, 9/10]
          ⟨some "Browser", false⟩ = Except.ok (some v) :=
  ((router_first_match_then_catchall [["Music Player"], ["ANY"]]
      [3/10, 9/10] "Browser" (by decide) (by decide)).2
    (by decide)).1 1 (by decide)

/-- C2: a frame of `ChannelCount` bytes read without error, with each byte
in `[0, 100]`, is decoded channel by channel as `b / 100`, each stored
volume lying in `[0, 1]`; in particular, with channel count 2 and frame
`[50, 80]`, a subsequent snapshot returns `[0.50, 0.80]`. -/
theorem read_sample_decodes_bytes (st : MixerState) (values : List Nat)
    (rc : Nat) (hch : st.channels ≤ st.volumes.length)
    (hlen : values.length = st.channels)
    (hbytes : ∀ b ∈ values, b ≤ 100) :
    (∃ st2, read_volumes st (Except.ok values) rc = Except.ok st2
      ∧ st2.channels = st.channels
      ∧ st2.volumes.length = st.volumes.length
      ∧ ∀ i, i < st.channels →
          st2.volumes[i]? = (values[i]?).map decodeByte
          ∧ ∃ v, st2.volumes[i]? = some v ∧ 0 ≤ v ∧ v ≤ 1)
    ∧ read_volumes ⟨[0, 0], 2⟩ (Except.ok [50, 80]) 0
        = Except.ok ⟨[decodeByte 50, decodeByte 80], 2⟩
    ∧ get_volumes ⟨[decodeByte 50, decodeByte 80], 2⟩ = [1/2, 4/5] := by
  refine ⟨?_, rfl, by norm_num [get_volumes, decodeByte]⟩
  have hstore : storeLoop st.volumes values st.channels
      = Except.ok (applySegment st.volumes values 0 st.channels) :=
    storeLoopAux_eq_applySegment st.channels st.volumes values 0
      (by omega) (by omega)
  refine ⟨{ st with volumes := applySegment st.volumes values 0 st.channels },
    by simp [read_volumes, storeLoop] at hstore ⊢; simp [hstore], rfl,
    applySegment_length st.channels st.volumes values 0, ?_⟩
  intro i hi
  have hwr : (applySegment st.volumes values 0 st.channels)[i]?
      = (values[i]?).map decodeByte :=
    applySegment_getElem?_written st.channels st.volumes values 0 i
      (by omega) (by omega) (by omega) (by omega)
  have hiv : i < values.length := by omega
  have hb : values[i]? = some values[i] := List.getElem?_eq_getElem hiv
  refine ⟨hwr, decodeByte values[i], ?_, decodeByte_nonneg values[i],
    decodeByte_le_one values[i] (hbytes values[i] (List.getElem_mem hiv))⟩
  rw [hwr, hb]
  rfl

/-- Witness for `read_sample_decodes_bytes`: the end-to-end scenario with
channel count 2 and frame `[50, 80]`. -/
theorem read_sample_decodes_bytes_witness :
    (∃ st2, read_volumes ⟨[0, 0], 2⟩ (Except.ok [50, 80]) 0 = Except.ok st2
      ∧ st2.channels = 2
      ∧ st2.volumes.length = 2
      ∧ ∀ i, i < 2 →
          st2.volumes[i]? = (([50, 80] : List Nat)[i]?).map decodeByte
          ∧ ∃ v, st2.volumes[i]? = some v ∧ 0 ≤ v ∧ v ≤ 1)
    ∧ read_volumes ⟨[0, 0], 2⟩ (Except.ok [50, 80]) 0
        = Except.ok ⟨[decodeByte 50, decodeByte 80], 2⟩
    ∧ get_volumes ⟨[decodeByte 50, decodeByte 80], 2⟩ = [1/2, 4/5] :=
  read_sample_decodes_bytes ⟨[0, 0], 2⟩ [50, 80] 0 (by decide) (by decide)
    (by decide)

/-- C3 counterexample: with previous sample `[0, 0]` and incoming frame
`[50, 80]`, a snapshot taken after the first of the two in-place channel
writes observes `[1/2, 0]` — neither the previous complete sample `[0, 0]`
nor the new complete sample `[1/2, 4/5]`.  The read loop mutates the shared
list in place one channel at a time; it is not an atomic replace. -/
theorem snapshot_mid_read_mixed :
    midReadSnapshot [0, 0] [50, 80] 1 = [decodeByte 50, 0]
    ∧ [decodeByte 50, 0] ≠ ([0, 0] : List ℚ)
    ∧ [decodeByte 50, 0] ≠ [decodeByte 50, decodeByte 80]
    ∧ storeLoop [0, 0] [50, 80] 2
        = Except.ok [decodeByte 50, decodeByte 80] := by
  refine ⟨rfl, ?_, ?_, rfl⟩
  · norm_num [decodeByte]
  · norm_num [decodeByte]

/-- C3 amended: a snapshot concurrent with an in-flight `read_sample` that
has completed `k` of its per-channel writes observes the first `k` channels
from the new frame and the remaining channels from the previous sample — a
mixed vector whenever `0 < k < N`.  At `k = 0` it is exactly the previous
sample, and the completed read stores exactly the `k`-step write sequence;
the copy returned to the reader is independently owned (`deepcopy`). -/
theorem snapshot_mid_read_segments (vols : List ℚ) (vals : List Nat)
    (k : Nat) (hk : k ≤ vols.length) (hk2 : k ≤ vals.length) :
    (∀ j, j < k →
        (midReadSnapshot vols vals k)[j]? = (vals[j]?).map decodeByte)
    ∧ (∀ j, k ≤ j → (midReadSnapshot vols vals k)[j]? = vols[j]?)
    ∧ midReadSnapshot vols vals 0 = vols
    ∧ storeLoop vols vals k = Except.ok (midReadSnapshot vols vals k) := by
  refine ⟨?_, ?_, rfl,
    storeLoopAux_eq_applySegment k vols vals 0 (by omega) (by omega)⟩
  · intro j hj
    exact applySegment_getElem?_written k vols vals 0 j (by omega) (by omega)
      (by omega) (by omega)
  · intro j hj
    exact applySegment_getElem?_untouched k vols vals 0 j (Or.inr (by omega))

/-- Witness for `snapshot_mid_read_segments`: previous sample `[0, 0]`,
frame `[50, 80]`, one completed write. -/
theorem snapshot_mid_read_segments_witness :
    (∀ j, j < 1 → (midReadSnapshot [0, 0] [50, 80] 1)[j]?
        = (([50, 80] : List Nat)[j]?).map decodeByte)
    ∧ (∀ j, 1 ≤ j →
        (midReadSnapshot [0, 0] [50, 80] 1)[j]? = ([0, 0] : List ℚ)[j]?)
    ∧ midReadSnapshot [0, 0] [50, 80] 0 = [0, 0]
    ∧ storeLoop [0, 0] [50, 80] 1
        = Except.ok (midReadSnapshot [0, 0] [50, 80] 1) :=
  snapshot_mid_read_segments [0, 0] [50, 80] 1 (by decide) (by decide)

/-- C8: a stream whose volume-set call raises `PulseOperationFailed` because
it vanished mid-iteration is skipped: the per-stream `try/except` swallows
the failure, every other stream is still processed normally, and the
iteration is not aborted. -/
theorem vanished_stream_skipped (channels : List (List String))
    (anyController : Option Nat) (volumes : List ℚ)
    (pre post : List SinkInput) (v : SinkInput) (n : String) (i : Nat)
    (a b : List (Option ℚ)) (hn : v.appName = some n) (hne : n ≠ "")
    (hv : v.vanished = true)
    (hr : routeIdx channels anyController n = some i)
    (hi : i < volumes.length)
    (ha : listenIter channels anyController volumes pre = Except.ok a)
    (hb : listenIter channels anyController volumes post = Except.ok b) :
    listenIter channels anyController volumes (pre ++ v :: post)
      = Except.ok (a ++ none :: b) := by
  apply listenIter_append channels anyController volumes pre (v :: post) a
    (none :: b) ha
  simp [listenIter,
    processSink_vanished channels anyController volumes v n i hn hne hv hr hi,
    hb]

/-- Witness for `vanished_stream_skipped`: two streams named "Music Player";
the second vanishes, the first still gets volume `1/2`. -/
theorem vanished_stream_skipped_witness :
    listenIter [["Music Player"]] none [1/2]
        ([⟨some "Music Player", false⟩] ++ ⟨some "Music Player", true⟩ :: [])
      = Except.ok ([some (1/2)] ++ none :: []) :=
  vanished_stream_skipped [["Music Player"]] none [1/2]
    [⟨some "Music Player", false⟩] [] ⟨some "Music Player", true⟩
    "Music Player" 0 [some (1/2)] [] rfl (by decide) rfl (by decide)
    (by decide) rfl rfl

end HardwareMixer
